import Mathlib

/-!
Shallow embedding of surfman src/surfman/src/platform/android/surface.rs.

Surfaces are tagged unions of an off-screen (HardwareBuffer) object set and a
window-backed (Window) object set.  The Device lifecycle operations are
embedded as pure functions.  External collaborators (the EGL/GL binding, the
Android hardware-buffer allocator, the make-current primitive, the
Renderbuffers helper) are modelled by an explicit environment record Env that
supplies the results of the external calls, and every operation additionally
returns the list of native calls it issued, in order, so that side effects and
teardown order are observable.  Native handles and pointers are modelled as
Nat, with 0 standing for null, EGL_NO_IMAGE_KHR and EGL_NO_SURFACE.
-/

namespace Surfman

/-- Constant gl::FRAMEBUFFER. -/
def glFRAMEBUFFER : Nat := 36160

/-- Constant gl::FRAMEBUFFER_COMPLETE. -/
def glFRAMEBUFFER_COMPLETE : Nat := 36053

/-- Constant gl::TEXTURE_2D. -/
def glTEXTURE_2D : Nat := 3553

/-- Constant egl::FALSE. -/
def eglFALSE : Nat := 0

/-- Constant EGL_NO_IMAGE_KHR (a null handle). -/
def EGL_NO_IMAGE_KHR : Nat := 0

/-- Constant egl::NO_SURFACE (a null handle). -/
def eglNO_SURFACE : Nat := 0

/-- Constant SURFACE_GL_TEXTURE_TARGET from surface.rs (gl::TEXTURE_2D). -/
def SURFACE_GL_TEXTURE_TARGET : Nat := glTEXTURE_2D

/-- Constant AHARDWAREBUFFER_FORMAT_R8G8B8A8_UNORM from the NDK ffi. -/
def AHARDWAREBUFFER_FORMAT_R8G8B8A8_UNORM : Nat := 1

/-- Constant AHARDWAREBUFFER_USAGE_CPU_READ_NEVER from the NDK ffi. -/
def AHARDWAREBUFFER_USAGE_CPU_READ_NEVER : Nat := 0

/-- Constant AHARDWAREBUFFER_USAGE_CPU_WRITE_NEVER from the NDK ffi. -/
def AHARDWAREBUFFER_USAGE_CPU_WRITE_NEVER : Nat := 0

/-- Constant AHARDWAREBUFFER_USAGE_GPU_SAMPLED_IMAGE from the NDK ffi. -/
def AHARDWAREBUFFER_USAGE_GPU_SAMPLED_IMAGE : Nat := 256

/-- Constant AHARDWAREBUFFER_USAGE_GPU_FRAMEBUFFER from the NDK ffi. -/
def AHARDWAREBUFFER_USAGE_GPU_FRAMEBUFFER : Nat := 512

/-- Cast of a signed 32-bit value to u32, as in size.width as u32. -/
def asU32 (x : Int) : Nat := (x % 4294967296).toNat

/-- A two-dimensional size with signed integer components (euclid Size2D of i32). -/
structure Size2D where
  width : Int
  height : Int
  deriving DecidableEq, Repr

/-- The windowing-API error payload used by this file (WindowingApiError::Failed). -/
inductive WindowingApiError where
  | Failed
  deriving DecidableEq, Repr

/-- The crate error variants reachable from the operations in surface.rs.
MakeCurrentFailed is the failure produced by the make-current primitive,
which lives outside this file. -/
inductive Error where
  | SurfaceCreationFailed (w : WindowingApiError)
  | WidgetAttached
  | NoWidgetAttached
  | IncompatibleSurface
  | Unimplemented
  | MakeCurrentFailed (w : WindowingApiError)
  deriving DecidableEq, Repr

/-- The outcome of running a lifecycle operation: a returned value, a returned
typed error, or a fatal assertion failure (a process abort in the source). -/
inductive Outcome (α : Type) where
  | ok (a : α)
  | err (e : Error)
  | fatal
  deriving DecidableEq, Repr

/-- Descriptor passed to AHardwareBuffer_allocate, mirroring AHardwareBuffer_Desc. -/
structure AHardwareBuffer_Desc where
  format : Nat
  height : Nat
  width : Nat
  layers : Nat
  rfu0 : Nat
  rfu1 : Nat
  stride : Nat
  usage : Nat
  deriving DecidableEq, Repr

/-- One native call issued by a lifecycle operation, recorded in order. -/
inductive NativeCall where
  | MakeCurrent (contextId : Nat)
  | AllocateHardwareBuffer (desc : AHardwareBuffer_Desc)
  | GetNativeClientBuffer (hardwareBuffer : Nat)
  | CreateImageKHR (clientBuffer : Nat)
  | BindEglImageToTexture (eglImage : Nat)
  | CreateFramebuffer (textureTarget textureObject : Nat)
  | CreateRenderbuffers (width height : Int)
  | BindRenderbuffers (renderbuffers : Nat)
  | CheckFramebufferStatus
  | CreateWindowSurface (nativeWindow : Nat)
  | SwapBuffers (display eglSurface : Nat)
  | BindFramebuffer (target framebufferObject : Nat)
  | DeleteFramebuffer (framebufferObject : Nat)
  | DestroyRenderbuffers (renderbuffers : Nat)
  | DeleteTexture (textureObject : Nat)
  | DestroyImageKHR (display eglImage : Nat)
  | ReleaseHardwareBuffer (hardwareBuffer : Nat)
  | DestroyEGLSurface (display eglSurface : Nat)
  deriving DecidableEq, Repr

/-- Behaviour of the external collaborators during one lifecycle operation:
each field is the value the corresponding external call returns. -/
structure Env where
  /-- Result of temporarily_make_context_current: none is success. -/
  makeCurrentError : Option WindowingApiError
  /-- Return code of AHardwareBuffer_allocate (0 is success). -/
  allocResult : Int
  /-- Hardware-buffer pointer written by AHardwareBuffer_allocate on success. -/
  allocBuffer : Nat
  /-- Whether the EGL_ANDROID_get_native_client_buffer extension is present. -/
  hasGetNativeClientBufferANDROID : Bool
  /-- Result of eglGetNativeClientBufferANDROID (0 is null). -/
  clientBuffer : Nat
  /-- Result of CreateImageKHR (0 is EGL_NO_IMAGE_KHR). -/
  eglImage : Nat
  /-- Texture object produced by bind_egl_image_to_gl_texture. -/
  boundTexture : Nat
  /-- Framebuffer object produced by create_and_bind_framebuffer. -/
  framebuffer : Nat
  /-- Handle of the Renderbuffers set produced by Renderbuffers::new. -/
  renderbuffers : Nat
  /-- Result of CheckFramebufferStatus. -/
  framebufferStatus : Nat
  /-- Result of ANativeWindow_getWidth. -/
  windowWidth : Int
  /-- Result of ANativeWindow_getHeight. -/
  windowHeight : Int
  /-- Result of CreateWindowSurface (0 is egl::NO_SURFACE). -/
  eglSurface : Nat
  /-- Result of DestroyImageKHR (0 is egl::FALSE, meaning failure). -/
  destroyImageResult : Nat
  deriving DecidableEq, Repr

/-- Identifier of an owning context (ContextID). -/
abbrev ContextID := Nat

/-- The graphics context, of which this file only uses the id field. -/
structure Context where
  id : ContextID
  deriving DecidableEq, Repr

/-- The Device: of its fields this file only uses the EGL display handle. -/
structure Device where
  egl_display : Nat
  deriving DecidableEq, Repr

/-- The tagged union of the two surface representations.  The Renderbuffers
set is an external owned object, modelled by its handle. -/
inductive SurfaceObjects where
  | HardwareBuffer (hardware_buffer egl_image framebuffer_object texture_object : Nat)
      (renderbuffers : Nat)
  | Window (egl_surface : Nat)
  deriving DecidableEq, Repr

/-- The central Surface entity of surface.rs. -/
structure Surface where
  context_id : ContextID
  size : Size2D
  objects : SurfaceObjects
  destroyed : Bool
  deriving DecidableEq, Repr

/-- A SurfaceTexture: the embedded Surface plus the image and texture created
in the consuming context. -/
structure SurfaceTexture where
  surface : Surface
  local_egl_image : Nat
  texture_object : Nat
  deriving DecidableEq, Repr

/-- The native widget wrapper holding a pointer to an ANativeWindow. -/
structure NativeWidget where
  native_window : Nat
  deriving DecidableEq, Repr

/-- The surface-type selector passed to create_surface. -/
inductive SurfaceType where
  | Generic (size : Size2D)
  | Widget (native_widget : NativeWidget)
  deriving DecidableEq, Repr

/-- The CPU-access hint, uninterpreted by this platform layer. -/
inductive SurfaceAccess where
  | GPUOnly
  | GPUCPU
  | GPUCPUWriteCombined
  deriving DecidableEq, Repr

/-- The opaque guard type returned by lock_surface_data: its value is never
produced on this platform. -/
structure SurfaceDataGuard where
  deriving DecidableEq, Repr

/-- Whether Drop for Surface raises the programming-error fault when this
value is dropped on a normally exiting (non-unwinding) path: it does exactly
when the surface was not destroyed first. -/
def Surface.drop_faults (s : Surface) : Bool := !s.destroyed

/-- Surface::size. -/
def Surface.sizeOf (s : Surface) : Size2D := s.size

/-- Surface::id: the identity is the primary native handle (the egl_image
for the hardware-buffer variant, the egl_surface for the window variant). -/
def Surface.id (s : Surface) : Nat :=
  match s.objects with
  | .HardwareBuffer _ egl_image _ _ _ => egl_image
  | .Window egl_surface => egl_surface

/-- Surface::context_id. -/
def Surface.contextId (s : Surface) : ContextID := s.context_id

/-- Whether the objects field is the HardwareBuffer (off-screen) variant. -/
def SurfaceObjects.isHardwareBuffer : SurfaceObjects → Bool
  | .HardwareBuffer _ _ _ _ _ => true
  | .Window _ => false

/-- Whether the objects field is the Window (window-backed) variant. -/
def SurfaceObjects.isWindow : SurfaceObjects → Bool
  | .HardwareBuffer _ _ _ _ _ => false
  | .Window _ => true

/-- SurfaceTexture::gl_texture. -/
def SurfaceTexture.gl_texture (st : SurfaceTexture) : Nat := st.texture_object

/-- Device::surface_gl_texture_target. -/
def Device.surface_gl_texture_target (_ : Device) : Nat := SURFACE_GL_TEXTURE_TARGET

/-- External helper generic::egl::surface::bind_egl_image_to_gl_texture:
creates a texture object and binds the image to it; the produced texture
object comes from the environment. -/
def bind_egl_image_to_gl_texture (env : Env) (egl_image : Nat) : Nat × List NativeCall :=
  (env.boundTexture, [.BindEglImageToTexture egl_image])

/-- External helper gl_utils::create_and_bind_framebuffer: creates a
framebuffer and attaches the texture; the produced framebuffer object comes
from the environment. -/
def create_and_bind_framebuffer (env : Env) (tex_target tex : Nat) : Nat × List NativeCall :=
  (env.framebuffer, [.CreateFramebuffer tex_target tex])

/-- Device::create_egl_image: gets the native client buffer (expect plus
non-null assertion) and creates an EGL image (assertion that it is not
EGL_NO_IMAGE_KHR).  none models a fatal assertion failure.  The Context
argument is ignored, as in the source. -/
def Device.create_egl_image (_ : Device) (env : Env) (_ : Context) (hardware_buffer : Nat) :
    Option Nat × List NativeCall :=
  if !env.hasGetNativeClientBufferANDROID then
    (none, [])
  else
    let client_buffer := env.clientBuffer
    if client_buffer = 0 then
      (none, [.GetNativeClientBuffer hardware_buffer])
    else
      let egl_image := env.eglImage
      if egl_image = EGL_NO_IMAGE_KHR then
        (none, [.GetNativeClientBuffer hardware_buffer, .CreateImageKHR client_buffer])
      else
        (some egl_image, [.GetNativeClientBuffer hardware_buffer, .CreateImageKHR client_buffer])

/-- Device::create_generic_surface: makes the context current, allocates the
native hardware buffer (SurfaceCreationFailed on a nonzero result), imports
it as an EGL image, binds it to a texture, creates and populates the
framebuffer, attaches the renderbuffers and checks framebuffer completeness
before returning the off-screen Surface. -/
def Device.create_generic_surface (dev : Device) (env : Env) (context : Context)
    (size : Size2D) : Outcome Surface × List NativeCall :=
  match env.makeCurrentError with
  | some w => (.err (.MakeCurrentFailed w), [.MakeCurrent context.id])
  | none =>
    let hardware_buffer_desc : AHardwareBuffer_Desc :=
      { format := AHARDWAREBUFFER_FORMAT_R8G8B8A8_UNORM
        height := asU32 size.height
        width := asU32 size.width
        layers := 1
        rfu0 := 0
        rfu1 := 0
        stride := 10
        usage := AHARDWAREBUFFER_USAGE_CPU_READ_NEVER |||
          AHARDWAREBUFFER_USAGE_CPU_WRITE_NEVER |||
          AHARDWAREBUFFER_USAGE_GPU_FRAMEBUFFER |||
          AHARDWAREBUFFER_USAGE_GPU_SAMPLED_IMAGE }
    let tr0 : List NativeCall :=
      [.MakeCurrent context.id, .AllocateHardwareBuffer hardware_buffer_desc]
    if env.allocResult ≠ 0 then
      (.err (.SurfaceCreationFailed .Failed), tr0)
    else
      let hardware_buffer := env.allocBuffer
      match dev.create_egl_image env context hardware_buffer with
      | (none, tr1) => (.fatal, tr0 ++ tr1)
      | (some egl_image, tr1) =>
        let (texture_object, tr2) := bind_egl_image_to_gl_texture env egl_image
        let (framebuffer_object, tr3) :=
          create_and_bind_framebuffer env SURFACE_GL_TEXTURE_TARGET texture_object
        let renderbuffers := env.renderbuffers
        let tr : List NativeCall :=
          tr0 ++ tr1 ++ tr2 ++ tr3 ++
            [.CreateRenderbuffers size.width size.height,
             .BindRenderbuffers renderbuffers, .CheckFramebufferStatus]
        if env.framebufferStatus ≠ glFRAMEBUFFER_COMPLETE then
          (.fatal, tr)
        else
          (.ok { size := size
                 context_id := context.id
                 objects := .HardwareBuffer hardware_buffer egl_image framebuffer_object
                   texture_object renderbuffers
                 destroyed := false }, tr)

/-- Device::create_window_surface: reads the window size from the native
window, creates the EGL window surface (fatal assertion when the binding
returns egl::NO_SURFACE) and returns the window-backed Surface. -/
def Device.create_window_surface (_ : Device) (env : Env) (context : Context)
    (native_window : Nat) : Outcome Surface × List NativeCall :=
  let width := env.windowWidth
  let height := env.windowHeight
  let egl_surface := env.eglSurface
  let tr : List NativeCall := [.CreateWindowSurface native_window]
  if egl_surface = eglNO_SURFACE then
    (.fatal, tr)
  else
    (.ok { context_id := context.id
           size := { width := width, height := height }
           objects := .Window egl_surface
           destroyed := false }, tr)

/-- Device::create_surface: dispatches on the surface type; the SurfaceAccess
hint is an unused parameter, as in the source. -/
def Device.create_surface (dev : Device) (env : Env) (context : Context)
    (_ : SurfaceAccess) (surface_type : SurfaceType) : Outcome Surface × List NativeCall :=
  match surface_type with
  | .Generic size => dev.create_generic_surface env context size
  | .Widget native_widget => dev.create_window_surface env context native_widget.native_window

/-- Result of create_surface_texture.  The surface parameter is taken by
value; drop_fault records whether a still-undestroyed Surface is dropped on a
normal (non-unwinding) exit of the call, which fires the Drop panic. -/
structure SurfaceTextureResult where
  result : Outcome SurfaceTexture
  trace : List NativeCall
  drop_fault : Bool
  deriving DecidableEq, Repr

/-- Device::create_surface_texture: on a window-backed surface the source
builds Err(WidgetAttached) and the consumed surface is dropped at function
exit; on an off-screen surface it makes the context current, imports the
same hardware buffer as a second EGL image and binds it to a new texture,
returning a SurfaceTexture embedding the original surface. -/
def Device.create_surface_texture (dev : Device) (env : Env) (context : Context)
    (surface : Surface) : SurfaceTextureResult :=
  match surface.objects with
  | .Window _ =>
    { result := .err .WidgetAttached
      trace := []
      drop_fault := !surface.destroyed }
  | .HardwareBuffer hardware_buffer _ _ _ _ =>
    match env.makeCurrentError with
    | some w =>
      { result := .err (.MakeCurrentFailed w)
        trace := [.MakeCurrent context.id]
        drop_fault := !surface.destroyed }
    | none =>
      match dev.create_egl_image env context hardware_buffer with
      | (none, tr1) =>
        { result := .fatal
          trace := .MakeCurrent context.id :: tr1
          drop_fault := false }
      | (some local_egl_image, tr1) =>
        let (texture_object, tr2) := bind_egl_image_to_gl_texture env local_egl_image
        { result := .ok { surface := surface
                          local_egl_image := local_egl_image
                          texture_object := texture_object }
          trace := (.MakeCurrent context.id :: tr1) ++ tr2
          drop_fault := false }

/-- Result of present_surface: the operation outcome, the native calls and
the final state of the surface passed by mutable reference. -/
structure PresentResult where
  result : Outcome Unit
  trace : List NativeCall
  surface : Surface
  deriving DecidableEq, Repr

/-- Device::present_surface_without_context: swaps buffers on a window
surface, fails with NoWidgetAttached on an off-screen surface. -/
def Device.present_surface_without_context (dev : Device) (surface : Surface) :
    PresentResult :=
  match surface.objects with
  | .Window egl_surface =>
    { result := .ok ()
      trace := [.SwapBuffers dev.egl_display egl_surface]
      surface := surface }
  | .HardwareBuffer _ _ _ _ _ =>
    { result := .err .NoWidgetAttached
      trace := []
      surface := surface }

/-- Device::present_surface: the context argument is ignored, as in the
source, and the call is forwarded to present_surface_without_context. -/
def Device.present_surface (dev : Device) (_ : Context) (surface : Surface) :
    PresentResult :=
  dev.present_surface_without_context surface

/-- Result of destroy_surface: the operation outcome, the native calls, and
the state of the consumed surface at the moment it is dropped. -/
structure DestroyResult where
  result : Outcome Unit
  trace : List NativeCall
  surface : Surface
  deriving DecidableEq, Repr

/-- Device::destroy_surface: on a context-id mismatch the surface is marked
destroyed, nothing is torn down and IncompatibleSurface is returned;
otherwise the off-screen variant is torn down in order (bind default
framebuffer, delete framebuffer, destroy renderbuffers, delete texture,
destroy EGL image with a fatal assertion on failure, release the hardware
buffer), nulling each handle, and the window variant destroys its EGL
surface; finally the surface is marked destroyed. -/
def Device.destroy_surface (dev : Device) (env : Env) (context : Context)
    (surface : Surface) : DestroyResult :=
  if context.id ≠ surface.context_id then
    { result := .err .IncompatibleSurface
      trace := []
      surface := { surface with destroyed := true } }
  else
    match surface.objects with
    | .HardwareBuffer hardware_buffer egl_image framebuffer_object texture_object
        renderbuffers =>
      let tr : List NativeCall :=
        [.BindFramebuffer glFRAMEBUFFER 0,
         .DeleteFramebuffer framebuffer_object,
         .DestroyRenderbuffers renderbuffers,
         .DeleteTexture texture_object,
         .DestroyImageKHR dev.egl_display egl_image]
      if env.destroyImageResult = eglFALSE then
        { result := .fatal
          trace := tr
          surface := { surface with
            objects := .HardwareBuffer hardware_buffer egl_image 0 0 renderbuffers } }
      else
        { result := .ok ()
          trace := tr ++ [.ReleaseHardwareBuffer hardware_buffer]
          surface := { surface with
            objects := .HardwareBuffer 0 EGL_NO_IMAGE_KHR 0 0 renderbuffers
            destroyed := true } }
    | .Window egl_surface =>
      { result := .ok ()
        trace := [.DestroyEGLSurface dev.egl_display egl_surface]
        surface := { surface with
          objects := .Window eglNO_SURFACE
          destroyed := true } }

/-- Result of destroy_surface_texture: the outcome carrying the returned
Surface, and the native calls. -/
structure DestroyTextureResult where
  result : Outcome Surface
  trace : List NativeCall
  deriving DecidableEq, Repr

/-- Device::destroy_surface_texture: makes the context current best-effort,
deletes the local texture, destroys the local EGL image (fatal assertion on
failure) and returns the embedded original Surface unchanged. -/
def Device.destroy_surface_texture (dev : Device) (env : Env) (context : Context)
    (surface_texture : SurfaceTexture) : DestroyTextureResult :=
  let tr : List NativeCall :=
    [.MakeCurrent context.id,
     .DeleteTexture surface_texture.texture_object,
     .DestroyImageKHR dev.egl_display surface_texture.local_egl_image]
  if env.destroyImageResult = eglFALSE then
    { result := .fatal, trace := tr }
  else
    { result := .ok surface_texture.surface, trace := tr }

/-- Device::lock_surface_data: always returns Unimplemented and leaves the
surface untouched. -/
def Device.lock_surface_data (_ : Device) (surface : Surface) :
    Outcome SurfaceDataGuard × Surface :=
  (.err .Unimplemented, surface)

/-- Whether an outcome is an error of the SurfaceCreationFailed kind. -/
def Outcome.isSurfaceCreationFailed {α : Type} : Outcome α → Bool
  | .err (.SurfaceCreationFailed _) => true
  | _ => false

/-- A concrete device used in concrete evaluations. -/
def devW : Device := { egl_display := 7 }

/-- A concrete context with id 1. -/
def ctxA : Context := { id := 1 }

/-- A concrete context with id 2. -/
def ctxB : Context := { id := 2 }

/-- A concrete native widget. -/
def nwW : NativeWidget := { native_window := 41 }

/-- A concrete environment in which every external call succeeds. -/
def envOk : Env :=
  { makeCurrentError := none
    allocResult := 0
    allocBuffer := 11
    hasGetNativeClientBufferANDROID := true
    clientBuffer := 12
    eglImage := 13
    boundTexture := 14
    framebuffer := 15
    renderbuffers := 16
    framebufferStatus := glFRAMEBUFFER_COMPLETE
    windowWidth := 800
    windowHeight := 600
    eglSurface := 17
    destroyImageResult := 1 }

/-- A concrete environment in which hardware-buffer allocation fails. -/
def envAllocFail : Env := { envOk with allocResult := -12 }

/-- A concrete live off-screen surface owned by context 1. -/
def surfHB : Surface :=
  { context_id := 1
    size := { width := 64, height := 64 }
    objects := .HardwareBuffer 21 22 23 24 25
    destroyed := false }

/-- A concrete live window-backed surface owned by context 1. -/
def surfWin : Surface :=
  { context_id := 1
    size := { width := 800, height := 600 }
    objects := .Window 31
    destroyed := false }

/-- C1: create_surface_texture on a window-backed surface.  The source builds
the Err(WidgetAttached) value, issues no native call, but takes the surface
by value and never returns it: at function exit the undestroyed surface is
dropped, firing the drop-time fault, so the surface is consumed rather than
returned to the caller.  Evaluated at a concrete window-backed surface. -/
theorem c1_create_surface_texture_window_consumes :
    (devW.create_surface_texture envOk ctxA surfWin).result = .err .WidgetAttached ∧
    (devW.create_surface_texture envOk ctxA surfWin).trace = [] ∧
    (devW.create_surface_texture envOk ctxA surfWin).drop_fault = true :=
  ⟨rfl, rfl, rfl⟩

/-- C2: destroying an off-screen surface owned by the supplied context tears
the native objects down in exactly the order bind-default-framebuffer,
delete framebuffer, destroy renderbuffers, delete texture, destroy EGL image,
release hardware buffer; it nulls every handle, marks the surface destroyed,
and a subsequent drop of the value is a no-op rather than a fault. -/
theorem c2_destroy_surface_teardown (dev : Device) (env : Env) (context : Context)
    (s : Surface) (hb img fbo tex rb : Nat)
    (hobj : s.objects = .HardwareBuffer hb img fbo tex rb)
    (hctx : context.id = s.context_id)
    (hdi : env.destroyImageResult ≠ eglFALSE) :
    dev.destroy_surface env context s =
      { result := .ok ()
        trace := [.BindFramebuffer glFRAMEBUFFER 0,
                  .DeleteFramebuffer fbo,
                  .DestroyRenderbuffers rb,
                  .DeleteTexture tex,
                  .DestroyImageKHR dev.egl_display img,
                  .ReleaseHardwareBuffer hb]
        surface := { s with objects := .HardwareBuffer 0 EGL_NO_IMAGE_KHR 0 0 rb
                            destroyed := true } } ∧
    (dev.destroy_surface env context s).surface.destroyed = true ∧
    (dev.destroy_surface env context s).surface.drop_faults = false := by
  have hmain : dev.destroy_surface env context s =
      { result := .ok ()
        trace := [.BindFramebuffer glFRAMEBUFFER 0,
                  .DeleteFramebuffer fbo,
                  .DestroyRenderbuffers rb,
                  .DeleteTexture tex,
                  .DestroyImageKHR dev.egl_display img,
                  .ReleaseHardwareBuffer hb]
        surface := { s with objects := .HardwareBuffer 0 EGL_NO_IMAGE_KHR 0 0 rb
                            destroyed := true } } := by
    simp [Device.destroy_surface, hobj, hctx, hdi]
  refine ⟨hmain, ?_, ?_⟩
  · rw [hmain]
  · rw [hmain]; rfl

/-- Witness for c2_destroy_surface_teardown at a concrete off-screen surface
owned by the supplied context. -/
theorem c2_witness :
    devW.destroy_surface envOk ctxA surfHB =
      { result := .ok ()
        trace := [.BindFramebuffer glFRAMEBUFFER 0,
                  .DeleteFramebuffer 23,
                  .DestroyRenderbuffers 25,
                  .DeleteTexture 24,
                  .DestroyImageKHR devW.egl_display 22,
                  .ReleaseHardwareBuffer 21]
        surface := { surfHB with objects := .HardwareBuffer 0 EGL_NO_IMAGE_KHR 0 0 25
                                 destroyed := true } } ∧
    (devW.destroy_surface envOk ctxA surfHB).surface.destroyed = true ∧
    (devW.destroy_surface envOk ctxA surfHB).surface.drop_faults = false :=
  c2_destroy_surface_teardown devW envOk ctxA surfHB 21 22 23 24 25 rfl rfl (by decide)

/-- C3: destroying a surface whose owning-context id differs from the
supplied context id returns IncompatibleSurface, marks the surface destroyed
and performs no native teardown call at all. -/
theorem c3_destroy_surface_incompatible (dev : Device) (env : Env) (context : Context)
    (s : Surface) (h : context.id ≠ s.context_id) :
    dev.destroy_surface env context s =
      { result := .err .IncompatibleSurface
        trace := []
        surface := { s with destroyed := true } } := by
  simp [Device.destroy_surface, h]

/-- Witness for c3_destroy_surface_incompatible at context 2 and a surface
owned by context 1. -/
theorem c3_witness :
    devW.destroy_surface envOk ctxB surfHB =
      { result := .err .IncompatibleSurface
        trace := []
        surface := { surfHB with destroyed := true } } :=
  c3_destroy_surface_incompatible devW envOk ctxB surfHB (by decide)

/-- C4: a successfully created surface has the advertised fields: on the
generic path its size is the requested size, it carries the HardwareBuffer
variant, its context id is the supplied context id and it is not destroyed;
on the window path its size is the native window size reported at creation
and it carries the Window variant. -/
theorem c4_create_surface_fields (dev : Device) (env : Env) (context : Context)
    (size : Size2D) (nw : NativeWidget) (access : SurfaceAccess)
    (hmc : env.makeCurrentError = none)
    (halloc : env.allocResult = 0)
    (hext : env.hasGetNativeClientBufferANDROID = true)
    (hcb : env.clientBuffer ≠ 0)
    (himg : env.eglImage ≠ EGL_NO_IMAGE_KHR)
    (hfb : env.framebufferStatus = glFRAMEBUFFER_COMPLETE)
    (hws : env.eglSurface ≠ eglNO_SURFACE) :
    (∃ s, (dev.create_surface env context access (.Generic size)).1 = .ok s ∧
      s.size = size ∧ s.context_id = context.id ∧ s.destroyed = false ∧
      s.objects.isHardwareBuffer = true) ∧
    (∃ s, (dev.create_surface env context access (.Widget nw)).1 = .ok s ∧
      s.size = { width := env.windowWidth, height := env.windowHeight } ∧
      s.objects.isWindow = true) := by
  have hgen : (dev.create_surface env context access (.Generic size)).1 =
      .ok { size := size
            context_id := context.id
            objects := .HardwareBuffer env.allocBuffer env.eglImage env.framebuffer
              env.boundTexture env.renderbuffers
            destroyed := false } := by
    simp [Device.create_surface, Device.create_generic_surface, Device.create_egl_image,
      bind_egl_image_to_gl_texture, create_and_bind_framebuffer,
      hmc, halloc, hext, hcb, himg, hfb]
  have hwin : (dev.create_surface env context access (.Widget nw)).1 =
      .ok { context_id := context.id
            size := { width := env.windowWidth, height := env.windowHeight }
            objects := .Window env.eglSurface
            destroyed := false } := by
    simp [Device.create_surface, Device.create_window_surface, hws]
  exact ⟨⟨_, hgen, rfl, rfl, rfl, rfl⟩, ⟨_, hwin, rfl, rfl⟩⟩

/-- Witness for c4_create_surface_fields at a concrete fully succeeding
environment, a 64 by 64 requested size and an 800 by 600 native window. -/
theorem c4_witness :
    (∃ s, (devW.create_surface envOk ctxA .GPUOnly
        (.Generic { width := 64, height := 64 })).1 = .ok s ∧
      s.size = { width := 64, height := 64 } ∧ s.context_id = ctxA.id ∧
      s.destroyed = false ∧ s.objects.isHardwareBuffer = true) ∧
    (∃ s, (devW.create_surface envOk ctxA .GPUOnly (.Widget nwW)).1 = .ok s ∧
      s.size = { width := envOk.windowWidth, height := envOk.windowHeight } ∧
      s.objects.isWindow = true) :=
  c4_create_surface_fields devW envOk ctxA { width := 64, height := 64 } nwW .GPUOnly
    rfl rfl rfl (by decide) (by decide) rfl (by decide)

/-- C6: presenting an off-screen (HardwareBuffer-variant) surface returns
NoWidgetAttached, performs no buffer swap (no native call) and leaves the
surface unchanged. -/
theorem c6_present_offscreen (dev : Device) (context : Context) (s : Surface)
    (h : s.objects.isHardwareBuffer = true) :
    dev.present_surface context s =
      { result := .err .NoWidgetAttached
        trace := []
        surface := s } := by
  cases hobj : s.objects with
  | HardwareBuffer a b c d e =>
    simp [Device.present_surface, Device.present_surface_without_context, hobj]
  | Window es => simp [SurfaceObjects.isHardwareBuffer, hobj] at h

/-- Witness for c6_present_offscreen at a concrete off-screen surface. -/
theorem c6_witness :
    devW.present_surface ctxA surfHB =
      { result := .err .NoWidgetAttached
        trace := []
        surface := surfHB } :=
  c6_present_offscreen devW ctxA surfHB (by decide)

/-- C5: for a SurfaceTexture obtained from a live surface by
create_surface_texture, destroy_surface_texture returns a surface whose id,
owning-context id and size are unchanged from creation time and which is not
marked destroyed. -/
theorem c5_destroy_surface_texture_returns_original (dev1 dev2 : Device)
    (env1 env2 : Env) (ctx1 ctx2 : Context) (s : Surface) (st : SurfaceTexture)
    (hcreate : (dev1.create_surface_texture env1 ctx1 s).result = .ok st)
    (hlive : s.destroyed = false)
    (hdi : env2.destroyImageResult ≠ eglFALSE) :
    ∃ s2, (dev2.destroy_surface_texture env2 ctx2 st).result = .ok s2 ∧
      s2.id = s.id ∧ s2.context_id = s.context_id ∧ s2.size = s.size ∧
      s2.destroyed = false := by
  have hsurf : st.surface = s := by
    obtain ⟨cid, sz, objs, dstr⟩ := s
    cases objs with
    | Window es => simp [Device.create_surface_texture] at hcreate
    | HardwareBuffer a b c d e =>
      cases hmc : env1.makeCurrentError with
      | some w => simp [Device.create_surface_texture, hmc] at hcreate
      | none =>
        rcases hegl : dev1.create_egl_image env1 ctx1 a with ⟨o, tr1⟩
        cases o with
        | none => simp [Device.create_surface_texture, hmc, hegl] at hcreate
        | some local_egl_image =>
          simp [Device.create_surface_texture, hmc, hegl,
            bind_egl_image_to_gl_texture] at hcreate
          rw [← hcreate]
  refine ⟨st.surface, ?_, ?_, ?_, ?_, ?_⟩
  · simp [Device.destroy_surface_texture, hdi]
  · rw [hsurf]
  · rw [hsurf]
  · rw [hsurf]
  · rw [hsurf]; exact hlive

/-- Witness for c5_destroy_surface_texture_returns_original round-tripping a
concrete off-screen surface through creation and destruction of its texture. -/
theorem c5_witness :
    ∃ s2, (devW.destroy_surface_texture envOk ctxB
        { surface := surfHB, local_egl_image := 13, texture_object := 14 }).result =
        .ok s2 ∧
      s2.id = surfHB.id ∧ s2.context_id = surfHB.context_id ∧
      s2.size = surfHB.size ∧ s2.destroyed = false :=
  c5_destroy_surface_texture_returns_original devW devW envOk envOk ctxA ctxB surfHB
    { surface := surfHB, local_egl_image := 13, texture_object := 14 }
    (by decide) rfl (by decide)

/-- C7: on the generic creation path the SurfaceCreationFailed error occurs
exactly when the native hardware-buffer allocation call is reached (the
make-current step succeeded) and reports a nonzero result, and in that case
the operation returns that error and produces no Surface. -/
theorem c7_surface_creation_failed_iff (dev : Device) (env : Env) (context : Context)
    (access : SurfaceAccess) (size : Size2D) :
    ((dev.create_surface env context access (.Generic size)).1.isSurfaceCreationFailed =
        true ↔ env.makeCurrentError = none ∧ env.allocResult ≠ 0) ∧
    (env.makeCurrentError = none → env.allocResult ≠ 0 →
      (dev.create_surface env context access (.Generic size)).1 =
        .err (.SurfaceCreationFailed .Failed)) := by
  constructor
  · cases hmc : env.makeCurrentError with
    | some w =>
      simp [Device.create_surface, Device.create_generic_surface, hmc,
        Outcome.isSurfaceCreationFailed]
    | none =>
      by_cases ha : env.allocResult = 0
      · rcases hegl : dev.create_egl_image env context env.allocBuffer with ⟨o, tr1⟩
        cases o with
        | none =>
          simp [Device.create_surface, Device.create_generic_surface, hmc, ha, hegl,
            Outcome.isSurfaceCreationFailed]
        | some img =>
          by_cases hfb : env.framebufferStatus = glFRAMEBUFFER_COMPLETE
          · simp [Device.create_surface, Device.create_generic_surface, hmc, ha, hegl,
              hfb, bind_egl_image_to_gl_texture, create_and_bind_framebuffer,
              Outcome.isSurfaceCreationFailed]
          · simp [Device.create_surface, Device.create_generic_surface, hmc, ha, hegl,
              hfb, bind_egl_image_to_gl_texture, create_and_bind_framebuffer,
              Outcome.isSurfaceCreationFailed]
      · simp [Device.create_surface, Device.create_generic_surface, hmc, ha,
          Outcome.isSurfaceCreationFailed]
  · intro h1 h2
    simp [Device.create_surface, Device.create_generic_surface, h1, h2]

/-- Witness for c7_surface_creation_failed_iff at an environment whose
hardware-buffer allocation reports a nonzero result. -/
theorem c7_witness :
    (devW.create_surface envAllocFail ctxA .GPUOnly
        (.Generic { width := 64, height := 64 })).1 =
      .err (.SurfaceCreationFailed .Failed) :=
  (c7_surface_creation_failed_iff devW envAllocFail ctxA .GPUOnly
      { width := 64, height := 64 }).2 rfl (by decide)

/-- C8: the SurfaceAccess hint is uninterpreted: for any two access hints and
otherwise identical inputs and external behaviour, create_surface returns
identical results and identical native-call traces. -/
theorem c8_access_hint_uninterpreted (dev : Device) (env : Env) (context : Context)
    (a1 a2 : SurfaceAccess) (surface_type : SurfaceType) :
    dev.create_surface env context a1 surface_type =
      dev.create_surface env context a2 surface_type := rfl

/-- C9: lock_surface_data always returns Unimplemented and leaves the surface
unchanged. -/
theorem c9_lock_surface_data (dev : Device) (s : Surface) :
    dev.lock_surface_data s = (.err .Unimplemented, s) := rfl

/-- C10: present_surface ignores its context argument: any two contexts give
the same result and the same effects, and on a window-backed surface it
swaps buffers and succeeds regardless of the context passed, with no
ownership check and no make-current call in the trace. -/
theorem c10_present_ignores_context (dev : Device) (c1 c2 : Context) (s : Surface) :
    dev.present_surface c1 s = dev.present_surface c2 s ∧
    (∀ es, s.objects = .Window es →
      dev.present_surface c1 s =
        { result := .ok ()
          trace := [.SwapBuffers dev.egl_display es]
          surface := s }) := by
  refine ⟨rfl, ?_⟩
  intro es hobj
  simp [Device.present_surface, Device.present_surface_without_context, hobj]

/-- Witness for c10_present_ignores_context at a concrete window-backed
surface and two distinct contexts. -/
theorem c10_witness :
    devW.present_surface ctxA surfWin = devW.present_surface ctxB surfWin ∧
    devW.present_surface ctxA surfWin =
      { result := .ok ()
        trace := [.SwapBuffers devW.egl_display 31]
        surface := surfWin } :=
  ⟨(c10_present_ignores_context devW ctxA ctxB surfWin).1,
   (c10_present_ignores_context devW ctxA ctxB surfWin).2 31 rfl⟩

end Surfman
